import Mathlib

/-!
Shallow embedding of the roadmap generation engine of the SkillBridge AI
service (`src/ai_service/main.py`, the `/roadmap` endpoint together with its
nested helpers `get_learning_resources` and `add_week`).

Dynamic Python values that may appear in the optional `preferences` and
`interview` dictionaries (and in the `missing` list) are modelled by the
inductive type `Val`; operations that can raise in Python return
`Except PyErr`.  String operations (`lower`, `strip`, `in`, `join`) are
modelled on the ASCII fragment actually used by the program.
-/

set_option maxHeartbeats 1000000

/-- A Python value as far as the roadmap endpoint inspects them: strings,
integers, lists and `None`. -/
inductive Val where
  | str : String → Val
  | int : Int → Val
  | list : List Val → Val
  | none : Val

/-- Python truthiness (`bool(v)`) for the modelled values. -/
def Val.truthy : Val → Bool
  | .str s => s != ""
  | .int n => n != 0
  | .list l => !l.isEmpty
  | .none => false

/-- `isinstance(v, str)`. -/
def Val.isStr : Val → Bool
  | .str _ => true
  | _ => false

/-- Extract the string payload, if any. -/
def Val.getStr : Val → Option String
  | .str s => some s
  | _ => Option.none

/-- The Python exceptions the endpoint can actually raise. -/
inductive PyErr where
  | typeError
  | valueError
  | attributeError
deriving DecidableEq

/-- ASCII lower-casing of one character, as `str.lower` does on the data of
this program. -/
def pyCharLower (c : Char) : Char :=
  if 'A' ≤ c ∧ c ≤ 'Z' then Char.ofNat (c.toNat + 32) else c

/-- `s.lower()` on the ASCII fragment used by the program. -/
def pyLowerStr (s : String) : String :=
  ⟨s.data.map pyCharLower⟩

/-- `s.strip()`: drop leading and trailing whitespace. -/
def pyStrip (s : String) : String :=
  ⟨((s.data.dropWhile Char.isWhitespace).reverse.dropWhile Char.isWhitespace).reverse⟩

/-- `sep.join(l)`. -/
def pyJoin (sep : String) : List String → String
  | [] => ""
  | [s] => s
  | s :: rest => s ++ sep ++ pyJoin sep rest

/-- Python's substring test `pat in s`. -/
def strContains (s pat : String) : Bool :=
  decide (pat.data <:+: s.data)

/-- Value of a non-empty all-digit character list. -/
def digitsVal : List Char → Option Nat
  | [] => Option.none
  | l =>
    if l.all Char.isDigit then
      some (l.foldl (fun a c => a * 10 + (c.toNat - 48)) 0)
    else Option.none

/-- `int(s)` for a string: optional sign after stripping whitespace, then
digits; anything else raises `ValueError` (modelled as `Option.none`). -/
def pyIntOfString (s : String) : Option Int :=
  match (pyStrip s).data with
  | '+' :: rest => (digitsVal rest).map (fun n => (n : Int))
  | '-' :: rest => (digitsVal rest).map (fun n => -(n : Int))
  | l => (digitsVal l).map (fun n => (n : Int))

/-- `int(v)`: identity on ints, parse for strings, `TypeError` otherwise. -/
def pyInt : Val → Except PyErr Int
  | .int n => .ok n
  | .str s =>
    match pyIntOfString s with
    | some n => .ok n
    | Option.none => .error .valueError
  | _ => .error .typeError

/-- `v.lower()`: succeeds exactly on strings, `AttributeError` otherwise. -/
def pyLower : Val → Except PyErr String
  | .str s => .ok (pyLowerStr s)
  | _ => .error .attributeError

/-- Iterating a Python value: lists yield their elements, strings yield their
characters as one-character strings, ints and `None` raise `TypeError`. -/
def pyIter : Val → Except PyErr (List Val)
  | .list l => .ok l
  | .str s => .ok (s.data.map (fun c => Val.str ⟨[c]⟩))
  | _ => .error .typeError

/-- `x or d` applied to a dictionary lookup result (`None` when absent). -/
def pyOr : Option Val → Val → Val
  | some x, d => if x.truthy then x else d
  | Option.none, d => d

/-- A learning-resource record `{title, url, type}`. -/
structure Res where
  title : String
  url : String
  type : String
deriving DecidableEq

/-- A week of the produced roadmap `{week, milestone, tasks, learning_resources}`. -/
structure Week where
  week : Nat
  milestone : String
  tasks : List String
  learning_resources : List Res
deriving DecidableEq

/-- The `/roadmap` response `{roadmap: [...]}`. -/
structure RoadmapResponse where
  roadmap : List Week
deriving DecidableEq

/-- The `preferences` dictionary: the three keys the endpoint reads. -/
structure Preferences where
  focus : Option Val
  pace : Option Val
  availability_hours : Option Val

/-- The `interview` dictionary: the three keys the endpoint reads. -/
structure Interview where
  weak_topics : Option Val
  strength_topics : Option Val
  avg_score : Option Val

/-- The request body of `/roadmap`. -/
structure RoadmapRequest where
  missing : List Val
  preferences : Option Preferences
  interview : Option Interview

/-! ## The static resource catalog (`skill_resources` in `get_learning_resources`) -/

/-- React "foundations" bucket. -/
def reactFoundations : List Res :=
  [⟨"React Official Documentation", "https://react.dev/learn", "documentation"⟩,
   ⟨"React Tutorial for Beginners", "https://www.freecodecamp.org/news/react-beginner-handbook/", "tutorial"⟩,
   ⟨"React Hooks Explained", "https://www.youtube.com/watch?v=O6P86uwfdR0", "video"⟩]

/-- React "project" bucket. -/
def reactProject : List Res :=
  [⟨"React Project Ideas", "https://github.com/florinpop17/app-ideas", "project-ideas"⟩,
   ⟨"Testing React Apps", "https://testing-library.com/docs/react-testing-library/intro/", "documentation"⟩,
   ⟨"React Best Practices", "https://react.dev/learn/thinking-in-react", "guide"⟩]

/-- Node.js "foundations" bucket. -/
def nodeFoundations : List Res :=
  [⟨"Node.js Official Docs", "https://nodejs.org/en/docs/", "documentation"⟩,
   ⟨"Node.js Tutorial", "https://www.w3schools.com/nodejs/", "tutorial"⟩,
   ⟨"Node.js Crash Course", "https://www.youtube.com/watch?v=fBNz5xF-Kx4", "video"⟩]

/-- Node.js "project" bucket. -/
def nodeProject : List Res :=
  [⟨"Express.js Guide", "https://expressjs.com/en/starter/installing.html", "documentation"⟩,
   ⟨"Node.js Testing with Jest", "https://jestjs.io/docs/getting-started", "documentation"⟩,
   ⟨"Node.js Best Practices", "https://github.com/goldbergyoni/nodebestpractices", "guide"⟩]

/-- Python "foundations" bucket. -/
def pythonFoundations : List Res :=
  [⟨"Python Official Tutorial", "https://docs.python.org/3/tutorial/", "documentation"⟩,
   ⟨"Python for Beginners", "https://www.python.org/about/gettingstarted/", "tutorial"⟩,
   ⟨"Python Crash Course", "https://www.youtube.com/watch?v=rfscVS0vtbw", "video"⟩]

/-- Python "project" bucket. -/
def pythonProject : List Res :=
  [⟨"Python Project Ideas", "https://github.com/karan/Projects", "project-ideas"⟩,
   ⟨"Python Testing with pytest", "https://docs.pytest.org/en/stable/", "documentation"⟩,
   ⟨"Python Best Practices", "https://realpython.com/python-code-quality/", "guide"⟩]

/-- MongoDB "foundations" bucket. -/
def mongoFoundations : List Res :=
  [⟨"MongoDB University", "https://university.mongodb.com/", "course"⟩,
   ⟨"MongoDB Tutorial", "https://www.mongodb.com/docs/manual/tutorial/", "tutorial"⟩,
   ⟨"MongoDB Crash Course", "https://www.youtube.com/watch?v=pWbMrx5rVBE", "video"⟩]

/-- MongoDB "project" bucket. -/
def mongoProject : List Res :=
  [⟨"MongoDB with Node.js", "https://www.mongodb.com/docs/drivers/node/current/", "documentation"⟩,
   ⟨"MongoDB Schema Design", "https://www.mongodb.com/docs/manual/data-modeling/", "guide"⟩,
   ⟨"MongoDB Performance", "https://www.mongodb.com/docs/manual/administration/analyzing-mongodb-performance/", "guide"⟩]

/-- Express "foundations" bucket. -/
def expressFoundations : List Res :=
  [⟨"Express.js Official Guide", "https://expressjs.com/en/guide/routing.html", "documentation"⟩,
   ⟨"Express.js Tutorial", "https://www.tutorialspoint.com/expressjs/", "tutorial"⟩,
   ⟨"Express.js Crash Course", "https://www.youtube.com/watch?v=L72fhGm1tfE", "video"⟩]

/-- Express "project" bucket. -/
def expressProject : List Res :=
  [⟨"Express.js Best Practices", "https://expressjs.com/en/advanced/best-practice-security.html", "guide"⟩,
   ⟨"Express.js Testing", "https://www.albertgao.xyz/2017/05/24/how-to-test-expressjs-with-jest-and-supertest/", "tutorial"⟩,
   ⟨"Express.js Middleware", "https://expressjs.com/en/guide/using-middleware.html", "documentation"⟩]

/-- AWS "foundations" bucket. -/
def awsFoundations : List Res :=
  [⟨"AWS Getting Started", "https://aws.amazon.com/getting-started/", "documentation"⟩,
   ⟨"AWS Free Tier", "https://aws.amazon.com/free/", "tutorial"⟩,
   ⟨"AWS Fundamentals", "https://www.youtube.com/watch?v=ulprqHHWlng", "video"⟩]

/-- AWS "project" bucket. -/
def awsProject : List Res :=
  [⟨"AWS Project Ideas", "https://aws.amazon.com/getting-started/hands-on/", "project-ideas"⟩,
   ⟨"AWS Well-Architected", "https://aws.amazon.com/architecture/well-architected/", "guide"⟩,
   ⟨"AWS Security Best Practices", "https://aws.amazon.com/architecture/security-identity-compliance/", "guide"⟩]

/-- Docker "foundations" bucket. -/
def dockerFoundations : List Res :=
  [⟨"Docker Official Tutorial", "https://docs.docker.com/get-started/", "documentation"⟩,
   ⟨"Docker for Beginners", "https://docker-curriculum.com/", "tutorial"⟩,
   ⟨"Docker Crash Course", "https://www.youtube.com/watch?v=fqMOX6JJhGo", "video"⟩]

/-- Docker "project" bucket. -/
def dockerProject : List Res :=
  [⟨"Docker Best Practices", "https://docs.docker.com/develop/dev-best-practices/", "guide"⟩,
   ⟨"Docker Compose Tutorial", "https://docs.docker.com/compose/gettingstarted/", "tutorial"⟩,
   ⟨"Docker Security", "https://docs.docker.com/engine/security/", "guide"⟩]

/-- TailwindCSS "foundations" bucket. -/
def tailwindFoundations : List Res :=
  [⟨"Tailwind CSS Documentation", "https://tailwindcss.com/docs", "documentation"⟩,
   ⟨"Tailwind CSS Tutorial", "https://www.youtube.com/watch?v=UBOj6rqRUME", "video"⟩,
   ⟨"Tailwind CSS Components", "https://tailwindui.com/components", "examples"⟩]

/-- TailwindCSS "project" bucket. -/
def tailwindProject : List Res :=
  [⟨"Tailwind CSS Best Practices", "https://tailwindcss.com/docs/reusing-styles", "guide"⟩,
   ⟨"Tailwind CSS with React", "https://tailwindcss.com/docs/guides/create-react-app", "tutorial"⟩,
   ⟨"Responsive Design with Tailwind", "https://tailwindcss.com/docs/responsive-design", "documentation"⟩]

/-- NLP "foundations" bucket. -/
def nlpFoundations : List Res :=
  [⟨"Natural Language Processing with Python", "https://www.nltk.org/book/", "book"⟩,
   ⟨"spaCy Tutorial", "https://spacy.io/usage/spacy-101", "tutorial"⟩,
   ⟨"NLP Course by Hugging Face", "https://huggingface.co/course/chapter1/1", "course"⟩]

/-- NLP "project" bucket. -/
def nlpProject : List Res :=
  [⟨"NLP Project Ideas", "https://github.com/keon/awesome-nlp", "project-ideas"⟩,
   ⟨"Transformers Library", "https://huggingface.co/docs/transformers/index", "documentation"⟩,
   ⟨"NLP with PyTorch", "https://pytorch.org/tutorials/beginner/nlp/", "tutorial"⟩]

/-- The catalog `skill_resources`, in the source's key insertion order; each
entry is `(key, foundations bucket, project bucket)`. -/
def skillResources : List (String × List Res × List Res) :=
  [("React", reactFoundations, reactProject),
   ("Node.js", nodeFoundations, nodeProject),
   ("Python", pythonFoundations, pythonProject),
   ("MongoDB", mongoFoundations, mongoProject),
   ("Express", expressFoundations, expressProject),
   ("AWS", awsFoundations, awsProject),
   ("Docker", dockerFoundations, dockerProject),
   ("TailwindCSS", tailwindFoundations, tailwindProject),
   ("NLP", nlpFoundations, nlpProject)]

/-- `default_resources["foundations"]`, synthesized from the skill name. -/
def default_foundations (skill : String) : List Res :=
  [⟨skill ++ " Official Documentation",
    "https://www.google.com/search?q=" ++ skill ++ "+official+documentation", "documentation"⟩,
   ⟨skill ++ " Tutorial",
    "https://www.google.com/search?q=" ++ skill ++ "+tutorial+beginner", "tutorial"⟩,
   ⟨skill ++ " Video Course",
    "https://www.youtube.com/results?search_query=" ++ skill ++ "+crash+course", "video"⟩]

/-- `default_resources["project"]`, synthesized from the skill name. -/
def default_project (skill : String) : List Res :=
  [⟨skill ++ " Project Ideas",
    "https://www.google.com/search?q=" ++ skill ++ "+project+ideas", "project-ideas"⟩,
   ⟨skill ++ " Best Practices",
    "https://www.google.com/search?q=" ++ skill ++ "+best+practices", "guide"⟩,
   ⟨skill ++ " Testing Guide",
    "https://www.google.com/search?q=" ++ skill ++ "+testing+guide", "guide"⟩]

/-- The catalog keys in enumeration order (`skill_resources.keys()`). -/
def catalogKeys : List String := skillResources.map (fun e => e.1)

/-- The partial-match test of the `for key in skill_resources.keys()` loop:
`key.lower() in skill.lower() or skill.lower() in key.lower()`. -/
def partialMatch (skill key : String) : Bool :=
  strContains (pyLowerStr skill) (pyLowerStr key) ||
  strContains (pyLowerStr key) (pyLowerStr skill)

/-- Bucket selection from the milestone title (`milestone_type.lower()`):
"foundations" wins, then "project", then "reinforcement" (which maps to
"project"), else "foundations". -/
def resourceTypeOf (milestone_type : String) : String :=
  let mt := pyLowerStr milestone_type
  if strContains mt "foundations" then "foundations"
  else if strContains mt "project" then "project"
  else if strContains mt "reinforcement" then "project"
  else "foundations"

/-- `get_learning_resources(skill, milestone_type)`: exact catalog key match,
else first partial match over the keys in order, else the synthesized
default resources. -/
def get_learning_resources (skill milestone_type : String) : List Res :=
  let resource_type := resourceTypeOf milestone_type
  let skill_key :=
    if (skillResources.lookup skill).isSome then skill
    else
      match catalogKeys.find? (partialMatch skill) with
      | some key => key
      | Option.none => skill
  match skillResources.lookup skill_key with
  | some br => if resource_type = "project" then br.2 else br.1
  | Option.none =>
    if resource_type = "project" then default_project skill else default_foundations skill

/-! ## Week synthesis (`add_week` and the body of `roadmap`) -/

/-- The stretch task `add_week` appends for `pace == "fast" and hours >= 8`. -/
def advancedTask : String := "Optional advanced reading/practice for stretch goals"

/-- The reflection task `add_week` appends for `pace == "slow" or hours < 5`. -/
def reflectTask : String := "Reflect: write notes on key learnings"

/-- The capstone stretch task appended when `avg_score >= 70`. -/
def stretchTask : String := "Stretch: add an advanced feature and write a postmortem"

/-- The capstone scope-down task appended when `avg_score < 50`. -/
def scopeDownTask : String := "Scope down and solidify fundamentals before expanding"

/-- The three base tasks of a "Foundations: {skill}" week. -/
def foundationsTasks (skill : String) : List String :=
  ["Read the official " ++ skill ++ " docs and summarize key concepts",
   "Complete a beginner tutorial/course for " ++ skill,
   "Practice: implement 2-3 small exercises using " ++ skill]

/-- The three base tasks of a "Project: Build with {skill}" week. -/
def projectTasks (skill : String) : List String :=
  ["Design and build a mini app using " ++ skill,
   "Add tests (unit/integration) and linting for the project",
   "Document learnings and challenges; push to a public repo"]

/-- The three base tasks of a "Reinforcement: {skill}" week. -/
def reinforcementTasks (skill : String) : List String :=
  ["Targeted practice on weak areas in " ++ skill ++ " (based on interview)",
   "Implement a small feature addressing an identified gap in " ++ skill,
   "Summarize lessons learned and update your notes"]

/-- The three fixed base tasks of the Capstone week. -/
def capstoneBaseTasks : List String :=
  ["Plan a portfolio-level project combining the learned skills",
   "Implement core features, focusing on clean architecture",
   "Add basic CI (tests) and deploy locally or to a free tier"]

/-- The three fixed tasks of the Assessment week ("{showcase}" interpolated). -/
def assessmentTasks (showcase : String) : List String :=
  ["Create a README and short demo video of the capstone",
   "Write a blog/notes highlighting " ++ showcase,
   "Prepare interview stories around the project (problem, approach, impact)"]

/-- The fixed resource list the Capstone week is overwritten with. -/
def capstoneResources : List Res :=
  [⟨"Portfolio Project Ideas", "https://github.com/practical-tutorials/project-based-learning", "project-ideas"⟩,
   ⟨"Clean Architecture Guide", "https://blog.cleancoder.com/uncle-bob/2012/08/13/the-clean-architecture.html", "guide"⟩,
   ⟨"CI/CD Best Practices", "https://docs.github.com/en/actions/learn-github-actions", "documentation"⟩]

/-- The fixed resource list the Assessment week is overwritten with. -/
def assessmentResources : List Res :=
  [⟨"How to Write a Great README", "https://www.makeareadme.com/", "guide"⟩,
   ⟨"Creating Demo Videos", "https://www.loom.com/", "tool"⟩,
   ⟨"Technical Interview Stories", "https://www.pramp.com/blog/how-to-tell-your-story-during-a-technical-interview", "guide"⟩]

/-- The pacing adjustment inside `add_week`: stretch task for fast pace with
enough hours, truncation plus reflection for slow pace or few hours. -/
def adjustTasks (pace : String) (hours : Int) (tasks : List String) : List String :=
  if pace = "fast" ∧ 8 ≤ hours then tasks ++ [advancedTask]
  else if pace = "slow" ∨ hours < 5 then tasks.take 2 ++ [reflectTask]
  else tasks

/-- `add_week(milestone, tasks, skill)`: append one week numbered
`len(weeks)+1`, with pacing-adjusted tasks; resources are looked up only for
a truthy (non-empty) skill. -/
def add_week (pace : String) (hours : Int) (weeks : List Week) (milestone : String)
    (tasks : List String) (skill : String) : List Week :=
  weeks ++ [⟨weeks.length + 1, milestone, adjustTasks pace hours tasks,
    if skill = "" then [] else get_learning_resources skill milestone⟩]

/-- The `area_map` used for prioritization. -/
def area_map (area : String) : List String :=
  if area = "frontend" then ["React", "TailwindCSS"]
  else if area = "backend" then ["Node.js", "Express", "MongoDB"]
  else if area = "cloud" then ["AWS", "Docker"]
  else if area = "ml" then ["Python", "NLP"]
  else []

/-- The prioritization loop: focus-area skills present in `missing` first
(first-seen wins), then the remaining missing skills in their order. -/
def prioritize (focus missing : List String) : List String :=
  let fromFocus := focus.foldl
    (fun acc area => (area_map area).foldl
      (fun acc2 s => if s ∈ missing ∧ s ∉ acc2 then acc2 ++ [s] else acc2) acc) []
  missing.foldl (fun acc s => if s ∉ acc then acc ++ [s] else acc) fromFocus

/-- The reinforcement trigger: `any(skill.lower() in t.lower() for t in weak_topics)`. -/
def weakMatch (weak_topics : List String) (skill : String) : Bool :=
  weak_topics.any (fun t => strContains (pyLowerStr t) (pyLowerStr skill))

/-- One iteration of the per-skill loop: Foundations week, Project week and,
when the interview flagged the skill as weak, a Reinforcement week. -/
def skillStep (pace : String) (hours : Int) (weak_topics : List String)
    (weeks : List Week) (skill : String) : List Week :=
  let w1 := add_week pace hours weeks ("Foundations: " ++ skill) (foundationsTasks skill) skill
  let w2 := add_week pace hours w1 ("Project: Build with " ++ skill) (projectTasks skill) skill
  if weakMatch weak_topics skill then
    add_week pace hours w2 ("Reinforcement: " ++ skill) (reinforcementTasks skill) skill
  else w2

/-- `if weeks: weeks[-1]["learning_resources"] = rs`. -/
def setLastResources (rs : List Res) : List Week → List Week
  | [] => []
  | [w] => [⟨w.week, w.milestone, w.tasks, rs⟩]
  | w :: x :: ws => w :: setLastResources rs (x :: ws)

/-- The Capstone base task list: three fixed tasks, plus a stretch task for
`avg_score >= 70`, plus a scope-down task for `avg_score < 50`. -/
def capTasksOf (avg : Int) : List String :=
  capstoneBaseTasks ++ (if 70 ≤ avg then [stretchTask] else []) ++
    (if avg < 50 then [scopeDownTask] else [])

/-- The showcase interpolation of the Assessment week: the first three
strength topics, or "key concepts" when none were given. -/
def showcaseOf (strength : List String) : String :=
  if strength = [] then "key concepts" else pyJoin ", " (strength.take 3)

/-- The plan construction after all inputs were cleaned and parsed: per-skill
weeks, the Capstone week (resources overwritten), the Assessment week
(resources overwritten). -/
def generateCore (missing focus : List String) (pace : String) (hours : Int)
    (weak strength : List String) (avg : Int) : List Week :=
  let prioritized := prioritize focus missing
  let afterSkills := prioritized.foldl (skillStep pace hours weak) []
  let combo := pyJoin ", " prioritized
  let w1 := add_week pace hours afterSkills ("Capstone: Integrate " ++ combo) (capTasksOf avg) ""
  let w2 := setLastResources capstoneResources w1
  let w3 := add_week pace hours w2 "Assessment & Reflection"
    (assessmentTasks (showcaseOf strength)) ""
  setLastResources assessmentResources w3

/-! ## Input cleaning and parsing (`roadmap`, lines 76-108) -/

/-- `[m.strip() for m in (req.missing or []) if m and isinstance(m, str)]`. -/
def cleanMissing (missing : List Val) : List String :=
  (missing.filter (fun m => m.truthy && m.isStr)).map (fun m => pyStrip (m.getStr.getD ""))

/-- `req.preferences or {}`. -/
def prefsOf (req : RoadmapRequest) : Preferences :=
  req.preferences.getD ⟨Option.none, Option.none, Option.none⟩

/-- `req.interview or {}`. -/
def interviewOf (req : RoadmapRequest) : Interview :=
  req.interview.getD ⟨Option.none, Option.none, Option.none⟩

/-- `[f.lower() for f in (prefs.get("focus") or []) if isinstance(f, str)]`. -/
def parseFocus (req : RoadmapRequest) : Except PyErr (List String) :=
  (pyIter (pyOr (prefsOf req).focus (Val.list []))).map
    (fun l => (l.filter Val.isStr).map (fun v => pyLowerStr (v.getStr.getD "")))

/-- `(prefs.get("pace") or "balanced").lower()`. -/
def parsePace (req : RoadmapRequest) : Except PyErr String :=
  pyLower (pyOr (prefsOf req).pace (Val.str "balanced"))

/-- `int(prefs.get("availability_hours") or 6)`. -/
def parseHours (req : RoadmapRequest) : Except PyErr Int :=
  pyInt (pyOr (prefsOf req).availability_hours (Val.int 6))

/-- `[t for t in (interview.get("weak_topics") or []) if isinstance(t, str)]`. -/
def parseWeak (req : RoadmapRequest) : Except PyErr (List String) :=
  (pyIter (pyOr (interviewOf req).weak_topics (Val.list []))).map
    (fun l => (l.filter Val.isStr).map (fun v => v.getStr.getD ""))

/-- `[t for t in (interview.get("strength_topics") or []) if isinstance(t, str)]`. -/
def parseStrength (req : RoadmapRequest) : Except PyErr (List String) :=
  (pyIter (pyOr (interviewOf req).strength_topics (Val.list []))).map
    (fun l => (l.filter Val.isStr).map (fun v => v.getStr.getD ""))

/-- `int(interview.get("avg_score") or 0)`. -/
def parseAvg (req : RoadmapRequest) : Except PyErr Int :=
  pyInt (pyOr (interviewOf req).avg_score (Val.int 0))

/-- The `/roadmap` endpoint: clean the missing list, return the empty plan
when nothing remains, otherwise parse the optional fields (each step can
raise) and build the plan. -/
def roadmap (req : RoadmapRequest) : Except PyErr RoadmapResponse :=
  let missing := cleanMissing req.missing
  if missing = [] then .ok ⟨[]⟩
  else do
    let focus ← parseFocus req
    let pace ← parsePace req
    let hours ← parseHours req
    let weak ← parseWeak req
    let strength ← parseStrength req
    let avg ← parseAvg req
    .ok ⟨generateCore missing focus pace hours weak strength avg⟩

/-- The Capstone week of a produced plan: the second-to-last week. -/
def capstoneWeek (p : RoadmapResponse) : Option Week :=
  p.roadmap[p.roadmap.length - 2]?

/-! ## Structural helpers for the proofs -/

/-- The number-free payload of a week (milestone, adjusted tasks, resources). -/
structure Body where
  milestone : String
  tasks : List String
  lr : List Res
deriving DecidableEq

/-- Attach consecutive week numbers `n+1, n+2, ...` to a list of bodies. -/
def numberFrom : Nat → List Body → List Week
  | _, [] => []
  | n, b :: bs => ⟨n + 1, b.milestone, b.tasks, b.lr⟩ :: numberFrom (n + 1) bs

/-- Concatenation of the images of a list-valued function. -/
def concatMap (f : α → List β) : List α → List β
  | [] => []
  | x :: xs => f x ++ concatMap f xs

/-- The list `[s, s+1, ..., s+n-1]`. -/
def seqFrom : Nat → Nat → List Nat
  | _, 0 => []
  | s, n + 1 => s :: seqFrom (s + 1) n

/-- The body `add_week` would append. -/
def mkBody (pace : String) (hours : Int) (milestone : String) (tasks : List String)
    (skill : String) : Body :=
  ⟨milestone, adjustTasks pace hours tasks,
   if skill = "" then [] else get_learning_resources skill milestone⟩

/-- The bodies one iteration of the per-skill loop appends. -/
def skillBodies (pace : String) (hours : Int) (weak : List String) (skill : String) : List Body :=
  [mkBody pace hours ("Foundations: " ++ skill) (foundationsTasks skill) skill,
   mkBody pace hours ("Project: Build with " ++ skill) (projectTasks skill) skill] ++
  (if weakMatch weak skill then
    [mkBody pace hours ("Reinforcement: " ++ skill) (reinforcementTasks skill) skill]
   else [])

/-- The Capstone body after its resource overwrite. -/
def capstoneBody (pace : String) (hours : Int) (avg : Int) (prioritized : List String) : Body :=
  ⟨"Capstone: Integrate " ++ pyJoin ", " prioritized,
   adjustTasks pace hours (capTasksOf avg), capstoneResources⟩

/-- The Assessment body after its resource overwrite. -/
def assessmentBody (pace : String) (hours : Int) (strength : List String) : Body :=
  ⟨"Assessment & Reflection",
   adjustTasks pace hours (assessmentTasks (showcaseOf strength)), assessmentResources⟩

/-- All bodies of a produced plan, in order. -/
def allBodies (pace : String) (hours : Int) (weak strength : List String) (avg : Int)
    (prioritized : List String) : List Body :=
  concatMap (skillBodies pace hours weak) prioritized ++
  [capstoneBody pace hours avg prioritized, assessmentBody pace hours strength]

theorem numberFrom_length (n : Nat) (bs : List Body) : (numberFrom n bs).length = bs.length := by
  induction bs generalizing n with
  | nil => rfl
  | cons b bs ih => simp [numberFrom, ih]

theorem numberFrom_append (a b : List Body) (n : Nat) :
    numberFrom n (a ++ b) = numberFrom n a ++ numberFrom (n + a.length) b := by
  induction a generalizing n with
  | nil => simp [numberFrom]
  | cons x xs ih =>
    simp only [List.cons_append, numberFrom, List.length_cons, List.append_eq]
    rw [ih]
    have h : n + 1 + xs.length = n + (xs.length + 1) := by omega
    rw [h]

theorem map_week_numberFrom (n : Nat) (bs : List Body) :
    (numberFrom n bs).map (fun w => w.week) = seqFrom (n + 1) bs.length := by
  induction bs generalizing n with
  | nil => rfl
  | cons b bs ih => simp [numberFrom, seqFrom, ih]

theorem mem_numberFrom {w : Week} {n : Nat} {bs : List Body} (h : w ∈ numberFrom n bs) :
    ∃ b ∈ bs, w.milestone = b.milestone ∧ w.tasks = b.tasks ∧ w.learning_resources = b.lr := by
  induction bs generalizing n with
  | nil => simp [numberFrom] at h
  | cons b bs ih =>
    simp only [numberFrom, List.mem_cons] at h
    rcases h with h | h
    · exact ⟨b, List.mem_cons_self b bs, by simp [h]⟩
    · obtain ⟨b', hb', hw⟩ := ih h
      exact ⟨b', List.mem_cons_of_mem b hb', hw⟩

theorem getElem?_numberFrom (n : Nat) (bs : List Body) (i : Nat) :
    (numberFrom n bs)[i]? = (bs[i]?).map (fun b => ⟨n + 1 + i, b.milestone, b.tasks, b.lr⟩) := by
  induction bs generalizing n i with
  | nil => simp [numberFrom]
  | cons b bs ih =>
    cases i with
    | zero => simp [numberFrom]
    | succ i =>
      simp only [numberFrom, List.getElem?_cons_succ, ih]
      cases bs[i]? with
      | none => rfl
      | some b' => simp; omega

theorem concatMap_append (f : α → List β) (a b : List α) :
    concatMap f (a ++ b) = concatMap f a ++ concatMap f b := by
  induction a with
  | nil => rfl
  | cons x xs ih => simp [concatMap, ih]

theorem mem_concatMap {f : α → List β} {l : List α} {b : β} :
    b ∈ concatMap f l ↔ ∃ x ∈ l, b ∈ f x := by
  induction l with
  | nil => simp [concatMap]
  | cons x xs ih => simp [concatMap, ih, List.mem_append]

theorem add_week_eq (pace : String) (hours : Int) (weeks : List Week) (m : String)
    (t : List String) (s : String) :
    add_week pace hours weeks m t s = weeks ++ numberFrom weeks.length [mkBody pace hours m t s] := by
  simp [add_week, numberFrom, mkBody]

theorem skillStep_eq (pace : String) (hours : Int) (weak : List String) (weeks : List Week)
    (skill : String) :
    skillStep pace hours weak weeks skill =
      weeks ++ numberFrom weeks.length (skillBodies pace hours weak skill) := by
  unfold skillStep skillBodies
  by_cases h : weakMatch weak skill
  · simp [h, add_week_eq, numberFrom, List.append_assoc]
  · simp [h, add_week_eq, numberFrom, List.append_assoc]

theorem foldl_skillStep (pace : String) (hours : Int) (weak : List String) :
    ∀ (l : List String) (init : List Week),
      l.foldl (skillStep pace hours weak) init =
        init ++ numberFrom init.length (concatMap (skillBodies pace hours weak) l) := by
  intro l
  induction l with
  | nil => intro init; simp [concatMap, numberFrom]
  | cons s l ih =>
    intro init
    rw [List.foldl_cons, ih, skillStep_eq]
    simp only [concatMap, numberFrom_append, List.append_assoc, List.length_append,
      numberFrom_length]

theorem setLast_append (rs : List Res) :
    ∀ (xs : List Week) (w : Week),
      setLastResources rs (xs ++ [w]) = xs ++ [⟨w.week, w.milestone, w.tasks, rs⟩]
  | [], w => by simp [setLastResources]
  | [x], w => by simp [setLastResources]
  | x :: y :: xs, w => by
    have ih := setLast_append rs (y :: xs) w
    simp only [List.cons_append] at ih ⊢
    rw [setLastResources, ih]

/-- The produced weeks are exactly the numbered body list. -/
theorem generateCore_eq (missing focus : List String) (pace : String) (hours : Int)
    (weak strength : List String) (avg : Int) :
    generateCore missing focus pace hours weak strength avg =
      numberFrom 0 (allBodies pace hours weak strength avg (prioritize focus missing)) := by
  unfold generateCore allBodies
  dsimp only
  rw [foldl_skillStep]
  simp only [List.nil_append, List.length_nil]
  rw [add_week_eq]
  simp only [numberFrom, numberFrom_length]
  rw [setLast_append]
  rw [add_week_eq]
  simp only [numberFrom, numberFrom_length, List.length_append, List.length_cons,
    List.length_nil]
  rw [setLast_append]
  rw [numberFrom_append]
  simp [numberFrom, mkBody, capstoneBody, assessmentBody, numberFrom_length, List.append_assoc]

/-! ## Inversion of `roadmap` and parse-success helpers -/

theorem roadmap_empty (req : RoadmapRequest) (h : cleanMissing req.missing = []) :
    roadmap req = .ok ⟨[]⟩ := by
  simp [roadmap, h]

theorem roadmap_ok_inv (req : RoadmapRequest) (plan : RoadmapResponse)
    (h : roadmap req = .ok plan) (hne : cleanMissing req.missing ≠ []) :
    ∃ focus pace hours weak strength avg,
      parseFocus req = .ok focus ∧ parsePace req = .ok pace ∧ parseHours req = .ok hours ∧
      parseWeak req = .ok weak ∧ parseStrength req = .ok strength ∧ parseAvg req = .ok avg ∧
      plan = ⟨generateCore (cleanMissing req.missing) focus pace hours weak strength avg⟩ := by
  unfold roadmap at h
  rw [if_neg hne] at h
  cases hf : parseFocus req with
  | error e => rw [hf] at h; exact absurd h (by simp [Bind.bind, Except.bind])
  | ok focus =>
  rw [hf] at h
  cases hp : parsePace req with
  | error e => rw [hp] at h; exact absurd h (by simp [Bind.bind, Except.bind])
  | ok pace =>
  rw [hp] at h
  cases hh : parseHours req with
  | error e => rw [hh] at h; exact absurd h (by simp [Bind.bind, Except.bind])
  | ok hours =>
  rw [hh] at h
  cases hw : parseWeak req with
  | error e => rw [hw] at h; exact absurd h (by simp [Bind.bind, Except.bind])
  | ok weak =>
  rw [hw] at h
  cases hs : parseStrength req with
  | error e => rw [hs] at h; exact absurd h (by simp [Bind.bind, Except.bind])
  | ok strength =>
  rw [hs] at h
  cases ha : parseAvg req with
  | error e => rw [ha] at h; exact absurd h (by simp [Bind.bind, Except.bind])
  | ok avg =>
  rw [ha] at h
  refine ⟨focus, pace, hours, weak, strength, avg, rfl, rfl, rfl, rfl, rfl, rfl, ?_⟩
  simp only [Bind.bind, Except.bind] at h
  exact (Except.ok.injEq _ _ ▸ h).symm

/-! ## Catalog facts -/

theorem lookup_mem {α β : Type} [BEq α] :
    ∀ {l : List (α × β)} {k : α} {v : β}, l.lookup k = some v → v ∈ l.map Prod.snd := by
  intro l
  induction l with
  | nil => intro k v h; simp [List.lookup] at h
  | cons p l ih =>
    intro k v h
    obtain ⟨pk, pv⟩ := p
    rw [List.lookup] at h
    split at h
    · injection h with h
      subst h
      simp
    · simp only [List.map_cons, List.mem_cons]
      exact Or.inr (ih h)

/-- Every bucket stored in the catalog has exactly three records. -/
theorem catalog_bucket_lengths :
    ∀ v ∈ skillResources.map Prod.snd, (Prod.fst v).length = 3 ∧ (Prod.snd v).length = 3 := by
  decide

/-- `get_learning_resources` always returns exactly three records. -/
theorem glr_length (skill milestone : String) :
    (get_learning_resources skill milestone).length = 3 := by
  unfold get_learning_resources
  dsimp only
  split
  · next br hbr =>
    have hmem := lookup_mem hbr
    have hlen := catalog_bucket_lengths _ hmem
    split
    · exact hlen.2
    · exact hlen.1
  · next =>
    split <;> rfl

/-- No exact key match and no partial key match in the catalog. -/
def noCatalogMatch (skill : String) : Bool :=
  (skillResources.lookup skill).isNone && (catalogKeys.find? (partialMatch skill)).isNone

/-- A string is a substring of any string assembled around it. -/
theorem strContains_append (a s b : String) : strContains (a ++ s ++ b) s = true := by
  simp only [strContains, decide_eq_true_eq]
  exact ⟨a.data, b.data, by rw [String.data_append, String.data_append]⟩

/-! ## Well-formedness of the optional fields (the inputs that do not raise) -/

/-- Values Python can iterate without raising: lists and strings. -/
def Val.iterable : Val → Bool
  | .list _ => true
  | .str _ => true
  | _ => false

/-- Values `int(...)` accepts in this model: ints and integer-shaped strings. -/
def Val.intConvertible : Val → Bool
  | .int _ => true
  | .str s => (pyIntOfString s).isSome
  | _ => false

/-- An optional list-like field that does not raise: absent, falsy or iterable. -/
def okIterVal : Option Val → Bool
  | Option.none => true
  | some x => !x.truthy || x.iterable

/-- An optional string field that does not raise: absent, falsy or a string. -/
def okStrVal : Option Val → Bool
  | Option.none => true
  | some x => !x.truthy || x.isStr

/-- An optional integer field that does not raise: absent, falsy or convertible. -/
def okIntVal : Option Val → Bool
  | Option.none => true
  | some x => !x.truthy || x.intConvertible

/-- The optional fields of a request that never raise during parsing. -/
def wellFormedOpt (req : RoadmapRequest) : Bool :=
  okIterVal (prefsOf req).focus && okStrVal (prefsOf req).pace &&
  okIntVal (prefsOf req).availability_hours && okIterVal (interviewOf req).weak_topics &&
  okIterVal (interviewOf req).strength_topics && okIntVal (interviewOf req).avg_score

theorem pyIter_pyOr_ok (v : Option Val) (d : List Val) (h : okIterVal v = true) :
    ∃ l, pyIter (pyOr v (Val.list d)) = .ok l := by
  cases v with
  | none => exact ⟨d, rfl⟩
  | some x =>
    simp only [pyOr]
    by_cases ht : x.truthy
    · rw [if_pos ht]
      simp only [okIterVal, ht, Bool.not_true, Bool.false_or] at h
      cases x with
      | list l => exact ⟨l, rfl⟩
      | str s => exact ⟨_, rfl⟩
      | int n => simp [Val.iterable] at h
      | none => simp [Val.iterable] at h
    · rw [if_neg ht]; exact ⟨d, rfl⟩

theorem pyLower_pyOr_ok (v : Option Val) (h : okStrVal v = true) :
    ∃ s, pyLower (pyOr v (Val.str "balanced")) = .ok s := by
  cases v with
  | none => exact ⟨_, rfl⟩
  | some x =>
    simp only [pyOr]
    by_cases ht : x.truthy
    · rw [if_pos ht]
      simp only [okStrVal, ht, Bool.not_true, Bool.false_or] at h
      cases x with
      | str s => exact ⟨_, rfl⟩
      | list l => simp [Val.isStr] at h
      | int n => simp [Val.isStr] at h
      | none => simp [Val.isStr] at h
    · rw [if_neg ht]; exact ⟨_, rfl⟩

theorem pyInt_pyOr_ok (v : Option Val) (d : Int) (h : okIntVal v = true) :
    ∃ n, pyInt (pyOr v (Val.int d)) = .ok n := by
  cases v with
  | none => exact ⟨d, rfl⟩
  | some x =>
    simp only [pyOr]
    by_cases ht : x.truthy
    · rw [if_pos ht]
      simp only [okIntVal, ht, Bool.not_true, Bool.false_or] at h
      cases x with
      | int n => exact ⟨n, rfl⟩
      | str s =>
        simp only [Val.intConvertible, Option.isSome_iff_exists] at h
        obtain ⟨n, hn⟩ := h
        exact ⟨n, by simp [pyInt, hn]⟩
      | list l => simp [Val.intConvertible] at h
      | none => simp [Val.intConvertible] at h
    · rw [if_neg ht]; exact ⟨d, rfl⟩

/-! ## Membership analysis of produced plans -/

theorem mem_allBodies {b : Body} {pace : String} {hours : Int} {weak strength : List String}
    {avg : Int} {prioritized : List String}
    (h : b ∈ allBodies pace hours weak strength avg prioritized) :
    (∃ skill ∈ prioritized, b ∈ skillBodies pace hours weak skill) ∨
    b = capstoneBody pace hours avg prioritized ∨ b = assessmentBody pace hours strength := by
  simp only [allBodies, List.mem_append, mem_concatMap, List.mem_cons,
    List.not_mem_nil, or_false] at h
  tauto

theorem mem_skillBodies {b : Body} {pace : String} {hours : Int} {weak : List String}
    {skill : String} (h : b ∈ skillBodies pace hours weak skill) :
    b = mkBody pace hours ("Foundations: " ++ skill) (foundationsTasks skill) skill ∨
    b = mkBody pace hours ("Project: Build with " ++ skill) (projectTasks skill) skill ∨
    (weakMatch weak skill = true ∧
      b = mkBody pace hours ("Reinforcement: " ++ skill) (reinforcementTasks skill) skill) := by
  unfold skillBodies at h
  by_cases hm : weakMatch weak skill
  · simp [hm] at h; tauto
  · simp [hm] at h; tauto

theorem plan_weeks_characterized (req : RoadmapRequest) (plan : RoadmapResponse)
    (h : roadmap req = .ok plan) (hne : cleanMissing req.missing ≠ []) :
    ∃ focus pace hours weak strength avg,
      parseFocus req = .ok focus ∧ parsePace req = .ok pace ∧ parseHours req = .ok hours ∧
      parseWeak req = .ok weak ∧ parseStrength req = .ok strength ∧ parseAvg req = .ok avg ∧
      plan.roadmap = numberFrom 0 (allBodies pace hours weak strength avg
        (prioritize focus (cleanMissing req.missing))) := by
  obtain ⟨f, p, hrs, w, s, a, hf, hp, hh, hw, hs, ha, hplan⟩ := roadmap_ok_inv req plan h hne
  refine ⟨f, p, hrs, w, s, a, hf, hp, hh, hw, hs, ha, ?_⟩
  rw [hplan]
  exact generateCore_eq _ _ _ _ _ _ _

/-! ## Facts about `prioritize` -/

theorem dedup_fold_mem (l : List String) :
    ∀ (init : List String) (s : String), s ∈ l ∨ s ∈ init →
      s ∈ l.foldl (fun acc x => if x ∉ acc then acc ++ [x] else acc) init := by
  induction l with
  | nil =>
    intro init s h
    rcases h with h | h
    · exact absurd h (List.not_mem_nil s)
    · exact h
  | cons x l ih =>
    intro init s h
    rw [List.foldl_cons]
    apply ih
    rcases h with h | h
    · rcases List.mem_cons.mp h with rfl | h
      · right
        by_cases hx : s ∈ init
        · rw [if_neg (not_not_intro hx)]; exact hx
        · rw [if_pos hx]; simp
      · exact Or.inl h
    · right
      by_cases hx : x ∈ init
      · rw [if_neg (not_not_intro hx)]; exact h
      · rw [if_pos hx]; exact List.mem_append_left _ h

theorem dedup_fold_subset (S : List String) (l : List String) (hl : ∀ y ∈ l, y ∈ S) :
    ∀ init, (∀ y ∈ init, y ∈ S) →
      ∀ y ∈ l.foldl (fun acc x => if x ∉ acc then acc ++ [x] else acc) init, y ∈ S := by
  induction l with
  | nil => intro init hi y hy; exact hi y hy
  | cons x l ih =>
    intro init hi y hy
    rw [List.foldl_cons] at hy
    refine ih (fun z hz => hl z (List.mem_cons_of_mem _ hz)) _ ?_ y hy
    intro z hz
    by_cases hx : x ∈ init
    · rw [if_neg (not_not_intro hx)] at hz; exact hi z hz
    · rw [if_pos hx] at hz
      rcases List.mem_append.mp hz with hz | hz
      · exact hi z hz
      · rcases List.mem_singleton.mp hz with rfl
        exact hl _ (List.mem_cons_self _ _)

theorem focus_fold_subset (missing : List String) :
    ∀ (areas : List String) (init : List String), (∀ y ∈ init, y ∈ missing) →
      ∀ y ∈ areas.foldl (fun acc area => (area_map area).foldl
          (fun acc2 s => if s ∈ missing ∧ s ∉ acc2 then acc2 ++ [s] else acc2) acc) init,
        y ∈ missing := by
  have inner : ∀ (skills : List String) (init : List String), (∀ y ∈ init, y ∈ missing) →
      ∀ y ∈ skills.foldl
          (fun acc2 s => if s ∈ missing ∧ s ∉ acc2 then acc2 ++ [s] else acc2) init,
        y ∈ missing := by
    intro skills
    induction skills with
    | nil => intro init hi y hy; exact hi y hy
    | cons s skills ih =>
      intro init hi y hy
      rw [List.foldl_cons] at hy
      refine ih _ ?_ y hy
      intro z hz
      by_cases hc : s ∈ missing ∧ s ∉ init
      · rw [if_pos hc] at hz
        rcases List.mem_append.mp hz with hz | hz
        · exact hi z hz
        · rcases List.mem_singleton.mp hz with rfl
          exact hc.1
      · rw [if_neg hc] at hz; exact hi z hz
  intro areas
  induction areas with
  | nil => intro init hi y hy; exact hi y hy
  | cons a areas ih =>
    intro init hi y hy
    rw [List.foldl_cons] at hy
    exact ih _ (inner _ _ hi) y hy

/-- Every missing skill appears in the prioritized list. -/
theorem mem_prioritize {s : String} {focus missing : List String} (h : s ∈ missing) :
    s ∈ prioritize focus missing := by
  unfold prioritize
  exact dedup_fold_mem missing _ s (Or.inl h)

/-- Every prioritized skill comes from the missing list. -/
theorem prioritize_subset {x : String} {focus missing : List String}
    (h : x ∈ prioritize focus missing) : x ∈ missing := by
  unfold prioritize at h
  exact dedup_fold_subset missing missing (fun y hy => hy) _
    (focus_fold_subset missing focus [] (by simp)) x h

/-! ## String discrimination for milestone titles -/

theorem reinf_milestone_inj {s : String} (h : "Reinforcement: " ++ s = "Reinforcement: React") :
    s = "React" := by
  have h2 := congrArg String.data h
  rw [String.data_append] at h2
  have h3 : ("Reinforcement: React" : String).data =
      ("Reinforcement: " : String).data ++ ("React" : String).data := rfl
  rw [h3] at h2
  exact String.ext (List.append_cancel_left h2)

theorem foundations_ne_reinfReact {s : String} : "Foundations: " ++ s ≠ "Reinforcement: React" := by
  intro h
  have h2 := congrArg (fun x => x.data.head?) h
  simp only [String.data_append] at h2
  simp at h2

theorem project_ne_reinfReact {s : String} :
    "Project: Build with " ++ s ≠ "Reinforcement: React" := by
  intro h
  have h2 := congrArg (fun x => x.data.head?) h
  simp only [String.data_append] at h2
  simp at h2

theorem capstone_ne_reinfReact {s : String} :
    "Capstone: Integrate " ++ s ≠ "Reinforcement: React" := by
  intro h
  have h2 := congrArg (fun x => x.data.head?) h
  simp only [String.data_append] at h2
  simp at h2

/-! ## Task-list facts -/

theorem mem_adjustTasks {t : String} {pace : String} {hours : Int} {tasks : List String}
    (h : t ∈ adjustTasks pace hours tasks) :
    t ∈ tasks ∨ t = advancedTask ∨ t = reflectTask := by
  unfold adjustTasks at h
  split at h
  · rcases List.mem_append.mp h with h | h
    · exact Or.inl h
    · exact Or.inr (Or.inl (List.mem_singleton.mp h))
  · split at h
    · rcases List.mem_append.mp h with h | h
      · exact Or.inl (List.mem_of_mem_take h)
      · exact Or.inr (Or.inr (List.mem_singleton.mp h))
    · exact Or.inl h

theorem mem_adjust_not_slow {t : String} {pace : String} {hours : Int} {tasks : List String}
    (ht : t ≠ advancedTask) (hpace : pace ≠ "slow") (hh : 5 ≤ hours) :
    t ∈ adjustTasks pace hours tasks ↔ t ∈ tasks := by
  have hns : ¬(pace = "slow" ∨ hours < 5) := by
    rintro (h | h)
    · exact hpace h
    · omega
  unfold adjustTasks
  by_cases hf : pace = "fast" ∧ 8 ≤ hours
  · rw [if_pos hf]
    simp [List.mem_append, ht]
  · rw [if_neg hf, if_neg hns]

theorem stretch_mem_capTasks (avg : Int) : stretchTask ∈ capTasksOf avg ↔ 70 ≤ avg := by
  unfold capTasksOf
  by_cases h7 : (70:Int) ≤ avg <;> by_cases h5 : avg < 50 <;>
    simp [h7, h5, List.mem_append, capstoneBaseTasks, stretchTask, scopeDownTask]

theorem scope_mem_capTasks (avg : Int) : scopeDownTask ∈ capTasksOf avg ↔ avg < 50 := by
  unfold capTasksOf
  by_cases h7 : (70:Int) ≤ avg <;> by_cases h5 : avg < 50 <;>
    simp [h7, h5, List.mem_append, capstoneBaseTasks, stretchTask, scopeDownTask]

theorem adjust_slow_length {pace : String} {hours : Int} (tasks : List String)
    (hcond : pace = "slow" ∨ hours < 5) (hlen : 2 ≤ tasks.length) :
    (adjustTasks pace hours tasks).length = 3 := by
  have hnf : ¬(pace = "fast" ∧ 8 ≤ hours) := by
    rintro ⟨hf, h8⟩
    rcases hcond with h | h
    · rw [h] at hf
      exact absurd hf (by decide)
    · omega
  unfold adjustTasks
  rw [if_neg hnf, if_pos hcond]
  simp [List.length_take]
  omega

theorem capTasks_len (avg : Int) : 2 ≤ (capTasksOf avg).length := by
  unfold capTasksOf
  by_cases h7 : (70:Int) ≤ avg <;> by_cases h5 : avg < 50 <;> simp [h7, h5, capstoneBaseTasks]

deriving instance DecidableEq for Except

theorem mem_of_getElem? {α : Type} {l : List α} {i : Nat} {a : α} (h : l[i]? = some a) :
    a ∈ l := by
  obtain ⟨hlt, he⟩ := List.getElem?_eq_some.mp h
  exact he ▸ List.getElem_mem hlt

/-- The Capstone week of any non-degenerate plan: its tasks are the
pacing-adjusted `capTasksOf avg`. -/
theorem capstoneWeek_spec (req : RoadmapRequest) (plan : RoadmapResponse)
    (h : roadmap req = .ok plan) (hne : cleanMissing req.missing ≠ []) :
    ∃ pace hours avg w, parsePace req = .ok pace ∧ parseHours req = .ok hours ∧
      parseAvg req = .ok avg ∧ capstoneWeek plan = some w ∧
      w.tasks = adjustTasks pace hours (capTasksOf avg) := by
  obtain ⟨f, pace, hours, wk, st, av, hf', hp', hh', hw', hs', ha', hplan⟩ :=
    plan_weeks_characterized req plan h hne
  set P := prioritize f (cleanMissing req.missing) with hP
  set CM := concatMap (skillBodies pace hours wk) P with hCM
  have hlen : plan.roadmap.length = CM.length + 2 := by
    rw [hplan, numberFrom_length]
    simp [allBodies, ← hCM]
  have hidx : plan.roadmap.length - 2 = CM.length := by omega
  have hget : (allBodies pace hours wk st av P)[CM.length]? =
      some (capstoneBody pace hours av P) := by
    unfold allBodies
    rw [← hCM, List.getElem?_append_right (le_refl CM.length)]
    simp
  refine ⟨pace, hours, av,
    ⟨0 + 1 + CM.length, (capstoneBody pace hours av P).milestone,
      (capstoneBody pace hours av P).tasks, (capstoneBody pace hours av P).lr⟩,
    hp', hh', ha', ?_, ?_⟩
  · unfold capstoneWeek
    rw [hidx, hplan, getElem?_numberFrom, hget]
    rfl
  · rfl

/-! ## Claim C9 -/

/-- Claim C9: for every preferences and interview value, a missing list that is
empty after cleaning yields the empty roadmap immediately, with no error. -/
theorem C9_thm (missing : List Val) (prefs : Option Preferences) (interview : Option Interview)
    (h : cleanMissing missing = []) :
    roadmap ⟨missing, prefs, interview⟩ = .ok ⟨[]⟩ :=
  roadmap_empty _ h

/-- Witness for C9: a list of falsy, non-string and whitespace-free entries
cleans to empty even next to a malformed pace value. -/
theorem C9_witness :
    roadmap ⟨[Val.int 3, Val.str "", Val.list [Val.str "React"]],
      some ⟨Option.none, some (Val.int 5), Option.none⟩, Option.none⟩ = .ok ⟨[]⟩ :=
  C9_thm _ _ _ (by decide)

/-! ## Claim C8 -/

/-- Claim C8: a skill with neither an exact nor a partial catalog match gets
exactly three synthesized resources per requested bucket, each URL containing
the skill name. -/
theorem C8_thm (skill milestone : String) (h : noCatalogMatch skill = true) :
    (get_learning_resources skill milestone).length = 3 ∧
    ∀ r ∈ get_learning_resources skill milestone, strContains r.url skill = true := by
  simp only [noCatalogMatch, Bool.and_eq_true, Option.isNone_iff_eq_none] at h
  obtain ⟨h1, h2⟩ := h
  have hglr : get_learning_resources skill milestone =
      if resourceTypeOf milestone = "project" then default_project skill
      else default_foundations skill := by
    unfold get_learning_resources
    rw [h1, h2]
    simp only [Option.isSome_none, Bool.false_eq_true, if_false]
    rw [h1]
  rw [hglr]
  split
  · refine ⟨rfl, ?_⟩
    intro r hr
    simp only [default_project, default_foundations, List.mem_cons, List.not_mem_nil,
      or_false] at hr
    rcases hr with rfl | rfl | rfl
    · exact strContains_append _ _ _
    · exact strContains_append _ _ _
    · exact strContains_append _ _ _
  · refine ⟨rfl, ?_⟩
    intro r hr
    simp only [default_project, default_foundations, List.mem_cons, List.not_mem_nil,
      or_false] at hr
    rcases hr with rfl | rfl | rfl
    · exact strContains_append _ _ _
    · exact strContains_append _ _ _
    · exact strContains_append _ _ _

/-- Witness for C8: the skill "Rust" and its Foundations and Project weeks. -/
theorem C8_witness :
    ((get_learning_resources "Rust" "Foundations: Rust").length = 3 ∧
      ∀ r ∈ get_learning_resources "Rust" "Foundations: Rust",
        strContains r.url "Rust" = true) ∧
    ((get_learning_resources "Rust" "Project: Build with Rust").length = 3 ∧
      ∀ r ∈ get_learning_resources "Rust" "Project: Build with Rust",
        strContains r.url "Rust" = true) :=
  ⟨C8_thm "Rust" "Foundations: Rust" (by decide),
   C8_thm "Rust" "Project: Build with Rust" (by decide)⟩

/-! ## Claim C4 -/

/-- The request of the worked example: missing React and Node.js, frontend
focus, balanced pace, six hours, no interview signals. -/
def c4Req : RoadmapRequest :=
  ⟨[Val.str "React", Val.str "Node.js"],
   some ⟨some (Val.list [Val.str "frontend"]), some (Val.str "balanced"), some (Val.int 6)⟩,
   Option.none⟩

/-- Claim C4: on the worked example the prioritized order is React before
Node.js and the plan is exactly the six stated weeks, numbered 1 to 6. -/
theorem C4_thm :
    prioritize ["frontend"] ["React", "Node.js"] = ["React", "Node.js"] ∧
    (roadmap c4Req).map (fun p => p.roadmap.map (fun w => (w.week, w.milestone))) =
      .ok [(1, "Foundations: React"), (2, "Project: Build with React"),
           (3, "Foundations: Node.js"), (4, "Project: Build with Node.js"),
           (5, "Capstone: Integrate React, Node.js"), (6, "Assessment & Reflection")] := by
  constructor
  · decide
  · decide

/-! ## Claim C2 -/

/-- A request whose `pace` is a truthy non-string value. -/
def c2BadReq : RoadmapRequest :=
  ⟨[Val.str "React"], some ⟨Option.none, some (Val.int 5), Option.none⟩, Option.none⟩

/-- Counterexample to C2: a non-string `pace` makes the engine raise
`AttributeError` (from `.lower()`) instead of treating the field as absent. -/
theorem C2_counter : roadmap c2BadReq = .error .attributeError := by decide

/-- Claim C2 (amended): the engine returns a plan, never an error, whenever
each optional field is absent, falsy, or of a tolerated shape: a string
`pace`, an int-convertible `availability_hours`/`avg_score`, and iterable
`focus`/`weak_topics`/`strength_topics` (whose non-string entries are
dropped); truthy values outside those shapes raise instead. -/
theorem C2_thm (req : RoadmapRequest) (h : wellFormedOpt req = true) :
    (roadmap req).isOk = true := by
  by_cases hc : cleanMissing req.missing = []
  · rw [roadmap_empty req hc]; rfl
  · simp only [wellFormedOpt, Bool.and_eq_true] at h
    obtain ⟨⟨⟨⟨⟨h1, h2⟩, h3⟩, h4⟩, h5⟩, h6⟩ := h
    obtain ⟨fl, hf⟩ := pyIter_pyOr_ok _ [] h1
    obtain ⟨pc, hp⟩ := pyLower_pyOr_ok _ h2
    obtain ⟨hrv, hh⟩ := pyInt_pyOr_ok _ 6 h3
    obtain ⟨wl, hw⟩ := pyIter_pyOr_ok _ [] h4
    obtain ⟨sl, hs⟩ := pyIter_pyOr_ok _ [] h5
    obtain ⟨av, ha⟩ := pyInt_pyOr_ok _ 0 h6
    unfold roadmap
    rw [if_neg hc]
    simp [parseFocus, parsePace, parseHours, parseWeak, parseStrength, parseAvg,
      hf, hp, hh, hw, hs, ha, Bind.bind, Except.bind, Except.map, Except.isOk]
    rfl

/-- A request exercising every tolerated malformed shape at once. -/
def c2OkReq : RoadmapRequest :=
  ⟨[Val.str " React "],
   some ⟨some (Val.list [Val.int 1, Val.str "frontend"]), some (Val.str "FAST"),
     some (Val.str "9")⟩,
   some ⟨some (Val.str "ab"), some (Val.list []), some (Val.str " 80 ")⟩⟩

/-- Witness for C2 (amended): a request with a non-string focus entry, a
string availability and score, and a string weak-topics value still yields a
plan. -/
theorem C2_witness : (roadmap c2OkReq).isOk = true :=
  C2_thm c2OkReq (by decide)

/-! ## Claim C5 -/

/-- Claim C5: in every produced plan the week numbers are exactly `1..N`:
each week's number is one more than the number of weeks before it. -/
theorem C5_thm (req : RoadmapRequest) (plan : RoadmapResponse) (h : roadmap req = .ok plan) :
    plan.roadmap.map (fun w => w.week) = seqFrom 1 plan.roadmap.length := by
  by_cases hc : cleanMissing req.missing = []
  · rw [roadmap_empty req hc] at h
    injection h with h
    rw [← h]
    rfl
  · obtain ⟨f, p, hrs, w, s, a, _, _, _, _, _, _, hplan⟩ :=
      plan_weeks_characterized req plan h hc
    rw [hplan, map_week_numberFrom, numberFrom_length]

/-- A request with two skills and a reinforcement trigger, for the C5 witness. -/
def c5Req : RoadmapRequest :=
  ⟨[Val.str "Docker", Val.str "AWS"], Option.none,
   some ⟨some (Val.list [Val.str "docker networking"]), Option.none, Option.none⟩⟩

/-- Witness for C5: a seven-week plan carries week numbers `1..7`. -/
theorem C5_witness :
    ((roadmap c5Req).toOption.getD ⟨[]⟩).roadmap.map (fun w => w.week) =
      seqFrom 1 ((roadmap c5Req).toOption.getD ⟨[]⟩).roadmap.length :=
  C5_thm c5Req ((roadmap c5Req).toOption.getD ⟨[]⟩) (by decide)

/-! ## Claim C6 -/

/-- Claim C6: under slow pace (or fewer than five hours) `add_week` keeps
exactly the first two base tasks plus one reflection task, and every week of
any plan produced under that condition has exactly three tasks. -/
theorem C6_thm :
    (∀ (pace : String) (hours : Int) (weeks : List Week) (milestone : String)
        (tasks : List String) (skill : String), pace = "slow" ∨ hours < 5 →
        add_week pace hours weeks milestone tasks skill =
          weeks ++ [⟨weeks.length + 1, milestone, tasks.take 2 ++ [reflectTask],
            if skill = "" then [] else get_learning_resources skill milestone⟩]) ∧
    (∀ (req : RoadmapRequest) (plan : RoadmapResponse) (pace : String) (hours : Int)
        (w : Week), roadmap req = .ok plan → parsePace req = .ok pace →
        parseHours req = .ok hours → (pace = "slow" ∨ hours < 5) →
        w ∈ plan.roadmap → w.tasks.length = 3) := by
  constructor
  · intro pace hours weeks milestone tasks skill hcond
    have hnf : ¬(pace = "fast" ∧ 8 ≤ hours) := by
      rintro ⟨hf, h8⟩
      rcases hcond with hcnd | hcnd
      · rw [hcnd] at hf
        exact absurd hf (by decide)
      · omega
    unfold add_week adjustTasks
    rw [if_neg hnf, if_pos hcond]
  · intro req plan pace hours w h hp hh hcond hw
    by_cases hc : cleanMissing req.missing = []
    · rw [roadmap_empty req hc] at h
      injection h with h
      rw [← h] at hw
      simp at hw
    · obtain ⟨f, p2, h2, wk, st, av, _, hp', hh', _, _, _, hplan⟩ :=
        plan_weeks_characterized req plan h hc
      rw [hp'] at hp
      injection hp with hp
      rw [hh'] at hh
      injection hh with hh
      subst hp hh
      rw [hplan] at hw
      obtain ⟨b, hb, _, htasks, _⟩ := mem_numberFrom hw
      rw [htasks]
      rcases mem_allBodies hb with ⟨skill, hskP, hbs⟩ | rfl | rfl
      · rcases mem_skillBodies hbs with rfl | rfl | ⟨_, rfl⟩
        · simp only [mkBody]
          exact adjust_slow_length _ hcond (by simp [foundationsTasks])
        · simp only [mkBody]
          exact adjust_slow_length _ hcond (by simp [projectTasks])
        · simp only [mkBody]
          exact adjust_slow_length _ hcond (by simp [reinforcementTasks])
      · simp only [capstoneBody]
        exact adjust_slow_length _ hcond (capTasks_len av)
      · simp only [assessmentBody]
        exact adjust_slow_length _ hcond (by simp [assessmentTasks])

/-- A slow-pace request whose Capstone would otherwise carry five tasks. -/
def c6Req : RoadmapRequest :=
  ⟨[Val.str "React"], some ⟨Option.none, some (Val.str "slow"), Option.none⟩,
   some ⟨Option.none, Option.none, some (Val.int 40)⟩⟩

/-- Witness for C6: the `add_week` equation at a four-task base list, and a
three-task week of a slow-pace plan. -/
theorem C6_witness :
    (add_week "slow" 6 [] "M" ["a", "b", "c", "d"] "" =
      [⟨1, "M", ["a", "b", reflectTask], []⟩]) ∧
    (((roadmap c6Req).toOption.getD ⟨[]⟩).roadmap.headD ⟨0, "", [], []⟩).tasks.length = 3 := by
  constructor
  · rw [C6_thm.1 "slow" 6 [] "M" ["a", "b", "c", "d"] "" (Or.inl rfl)]
    decide
  · exact C6_thm.2 c6Req ((roadmap c6Req).toOption.getD ⟨[]⟩) "slow" 6 _ (by decide)
      (by decide) (by decide) (Or.inl rfl) (by decide)

/-! ## Claim C1 -/

/-- A slow-pace request with a high interview score. -/
def c1BadReq : RoadmapRequest :=
  ⟨[Val.str "React"], some ⟨Option.none, some (Val.str "slow"), Option.none⟩,
   some ⟨Option.none, Option.none, some (Val.int 75)⟩⟩

/-- Counterexample to C1: with `pace="slow"` and `avg_score=75` the Capstone
week exists but its task list does not include the stretch task — the pacing
truncation removes it, so the property fails for some preferences. -/
theorem C1_counter :
    ((roadmap c1BadReq).toOption.bind capstoneWeek).map
      (fun w => decide (stretchTask ∈ w.tasks)) = some false := by
  decide

/-- Claim C1 (amended): whenever the pacing adjustment is not the truncating
branch (parsed pace is not "slow" and hours are at least 5), the Capstone
week's task list includes the stretch task exactly when `avg_score >= 70`
and the scope-down task exactly when `avg_score < 50`; in particular it has
the stretch task at 75, the scope-down task at 40, and neither at 60. -/
theorem C1_thm (req : RoadmapRequest) (plan : RoadmapResponse) (w : Week) (pace : String)
    (hours avg : Int) (h : roadmap req = .ok plan) (hcap : capstoneWeek plan = some w)
    (hp : parsePace req = .ok pace) (hh : parseHours req = .ok hours)
    (ha : parseAvg req = .ok avg) (hpace : pace ≠ "slow") (hhours : 5 ≤ hours) :
    (stretchTask ∈ w.tasks ↔ 70 ≤ avg) ∧ (scopeDownTask ∈ w.tasks ↔ avg < 50) := by
  by_cases hc : cleanMissing req.missing = []
  · rw [roadmap_empty req hc] at h
    injection h with h
    rw [← h] at hcap
    simp [capstoneWeek] at hcap
  · obtain ⟨pace2, hours2, avg2, w2, hp', hh', ha', hcap', htasks⟩ :=
      capstoneWeek_spec req plan h hc
    rw [hp'] at hp
    injection hp with hp
    rw [hh'] at hh
    injection hh with hh
    rw [ha'] at ha
    injection ha with ha
    subst hp hh ha
    rw [hcap'] at hcap
    injection hcap with hcap
    rw [← hcap, htasks]
    constructor
    · rw [mem_adjust_not_slow (by decide) hpace hhours, stretch_mem_capTasks]
    · rw [mem_adjust_not_slow (by decide) hpace hhours, scope_mem_capTasks]

/-- A balanced-pace request scoring 75, for the C1 witness. -/
def c1OkReq : RoadmapRequest :=
  ⟨[Val.str "React"], Option.none, some ⟨Option.none, Option.none, some (Val.int 75)⟩⟩

/-- Witness for C1 (amended): at balanced pace and score 75 the Capstone
task membership matches the two thresholds. -/
theorem C1_witness :
    (stretchTask ∈ ((capstoneWeek ((roadmap c1OkReq).toOption.getD ⟨[]⟩)).getD
        ⟨0, "", [], []⟩).tasks ↔ 70 ≤ (75 : Int)) ∧
    (scopeDownTask ∈ ((capstoneWeek ((roadmap c1OkReq).toOption.getD ⟨[]⟩)).getD
        ⟨0, "", [], []⟩).tasks ↔ (75 : Int) < 50) :=
  C1_thm c1OkReq ((roadmap c1OkReq).toOption.getD ⟨[]⟩)
    ((capstoneWeek ((roadmap c1OkReq).toOption.getD ⟨[]⟩)).getD ⟨0, "", [], []⟩)
    "balanced" 6 75 (by decide) (by decide) (by decide) (by decide) (by decide)
    (by decide) (by decide)

/-! ## Claim C3 -/

/-- The stretch and scope-down tasks are never both in the Capstone week. -/
theorem capstone_not_both (req : RoadmapRequest) (plan : RoadmapResponse) (w : Week)
    (h : roadmap req = .ok plan) (hcap : capstoneWeek plan = some w) :
    ¬(stretchTask ∈ w.tasks ∧ scopeDownTask ∈ w.tasks) := by
  rintro ⟨hst, hsc⟩
  by_cases hc : cleanMissing req.missing = []
  · rw [roadmap_empty req hc] at h
    injection h with h
    rw [← h] at hcap
    simp [capstoneWeek] at hcap
  · obtain ⟨pace, hours, avg, w2, _, _, _, hcap', htasks⟩ := capstoneWeek_spec req plan h hc
    rw [hcap'] at hcap
    injection hcap with hcap
    rw [← hcap, htasks] at hst hsc
    have h70 : 70 ≤ avg := by
      rcases mem_adjustTasks hst with hm | hm | hm
      · exact (stretch_mem_capTasks avg).mp hm
      · exact absurd hm (by decide)
      · exact absurd hm (by decide)
    have h50 : avg < 50 := by
      rcases mem_adjustTasks hsc with hm | hm | hm
      · exact (scope_mem_capTasks avg).mp hm
      · exact absurd hm (by decide)
      · exact absurd hm (by decide)
    omega

/-- Counterexample to C3: no request makes both the stretch task and the
scope-down task appear in the Capstone week — the two threshold conditions
cannot hold at once for one integer score. -/
theorem C3_counter :
    ¬∃ (req : RoadmapRequest) (plan : RoadmapResponse) (w : Week),
        roadmap req = .ok plan ∧ capstoneWeek plan = some w ∧
        stretchTask ∈ w.tasks ∧ scopeDownTask ∈ w.tasks := by
  rintro ⟨req, plan, w, h, hcap, hst, hsc⟩
  exact capstone_not_both req plan w h hcap ⟨hst, hsc⟩

/-- Claim C3 (amended): the stretch condition (`avg_score >= 70`) and the
scope-down condition (`avg_score < 50`) are mutually exclusive, so the
Capstone week never carries both tasks. -/
theorem C3_thm (req : RoadmapRequest) (plan : RoadmapResponse) (w : Week)
    (h : roadmap req = .ok plan) (hcap : capstoneWeek plan = some w) :
    stretchTask ∉ w.tasks ∨ scopeDownTask ∉ w.tasks := by
  by_cases hst : stretchTask ∈ w.tasks
  · right
    intro hsc
    exact capstone_not_both req plan w h hcap ⟨hst, hsc⟩
  · exact Or.inl hst

/-- A request scoring 75, for the C3 witness. -/
def c3Req : RoadmapRequest :=
  ⟨[Val.str "AWS"], Option.none, some ⟨Option.none, Option.none, some (Val.int 75)⟩⟩

/-- Witness for C3 (amended): at score 75 the Capstone week misses at least
one of the two conditional tasks. -/
theorem C3_witness :
    stretchTask ∉ ((capstoneWeek ((roadmap c3Req).toOption.getD ⟨[]⟩)).getD
        ⟨0, "", [], []⟩).tasks ∨
    scopeDownTask ∉ ((capstoneWeek ((roadmap c3Req).toOption.getD ⟨[]⟩)).getD
        ⟨0, "", [], []⟩).tasks :=
  C3_thm c3Req ((roadmap c3Req).toOption.getD ⟨[]⟩)
    ((capstoneWeek ((roadmap c3Req).toOption.getD ⟨[]⟩)).getD ⟨0, "", [], []⟩)
    (by decide) (by decide)

/-! ## Claim C10 -/

/-- A request whose only missing entry is a single space. -/
def c10BadReq : RoadmapRequest := ⟨[Val.str " "], Option.none, Option.none⟩

/-- Counterexample to C10: `missing=[" "]` cleans to the empty-string skill,
whose weeks get an empty resource list (the `if skill:` guard), so a produced
week carries 0 learning resources rather than 3. -/
theorem C10_counter :
    ((roadmap c10BadReq).toOption.bind (fun p => p.roadmap[0]?)).map
      (fun w => w.learning_resources.length) = some 0 := by
  decide

/-- Claim C10 (amended): whenever every cleaned missing entry is non-empty,
every week of the produced plan carries exactly 3 learning resources — the
catalog buckets, the synthesized defaults, and the fixed Capstone and
Assessment lists all have 3 records. -/
theorem C10_thm (req : RoadmapRequest) (plan : RoadmapResponse) (w : Week)
    (h : roadmap req = .ok plan) (hmiss : ∀ s ∈ cleanMissing req.missing, s ≠ "")
    (hw : w ∈ plan.roadmap) : w.learning_resources.length = 3 := by
  by_cases hc : cleanMissing req.missing = []
  · rw [roadmap_empty req hc] at h
    injection h with h
    rw [← h] at hw
    simp at hw
  · obtain ⟨f, p2, h2, wk, st, av, _, _, _, _, _, _, hplan⟩ :=
      plan_weeks_characterized req plan h hc
    rw [hplan] at hw
    obtain ⟨b, hb, _, _, hlr⟩ := mem_numberFrom hw
    rw [hlr]
    rcases mem_allBodies hb with ⟨skill, hskP, hbs⟩ | rfl | rfl
    · have hne : skill ≠ "" := hmiss skill (prioritize_subset hskP)
      rcases mem_skillBodies hbs with rfl | rfl | ⟨_, rfl⟩ <;>
        simp only [mkBody, if_neg hne, glr_length]
    · rfl
    · rfl

/-- A request whose missing entry strips to a non-empty skill. -/
def c10OkReq : RoadmapRequest := ⟨[Val.str " React "], Option.none, Option.none⟩

/-- Witness for C10 (amended): the first week of a plan over non-empty
skills has exactly 3 resources. -/
theorem C10_witness :
    (((roadmap c10OkReq).toOption.getD ⟨[]⟩).roadmap.headD
      ⟨0, "", [], []⟩).learning_resources.length = 3 :=
  C10_thm c10OkReq ((roadmap c10OkReq).toOption.getD ⟨[]⟩)
    (((roadmap c10OkReq).toOption.getD ⟨[]⟩).roadmap.headD ⟨0, "", [], []⟩)
    (by decide) (by decide) (by decide)

/-! ## Claim C7 -/

/-- Claim C7: when "React" is among the cleaned missing skills, the plan has
a "Reinforcement: React" week exactly when some weak topic contains "react"
case-insensitively; that week immediately follows React's Project week and
carries React's "project" resource bucket. -/
theorem C7_thm (req : RoadmapRequest) (plan : RoadmapResponse) (wts : List String)
    (h : roadmap req = .ok plan) (hwts : parseWeak req = .ok wts)
    (hreact : "React" ∈ cleanMissing req.missing) :
    ((∃ w ∈ plan.roadmap, w.milestone = "Reinforcement: React") ↔
      wts.any (fun t => strContains (pyLowerStr t) "react") = true) ∧
    (wts.any (fun t => strContains (pyLowerStr t) "react") = true →
      ∃ i w1 w2, plan.roadmap[i]? = some w1 ∧ plan.roadmap[i + 1]? = some w2 ∧
        w1.milestone = "Project: Build with React" ∧ w2.milestone = "Reinforcement: React" ∧
        w2.learning_resources = reactProject) := by
  have hc : cleanMissing req.missing ≠ [] := by
    intro hc
    rw [hc] at hreact
    exact absurd hreact (List.not_mem_nil _)
  obtain ⟨f, pace, hours, wk, st, av, hf', hp', hh', hw', hs', ha', hplan⟩ :=
    plan_weeks_characterized req plan h hc
  rw [hw'] at hwts
  injection hwts with hwts
  subst hwts
  have hlow : pyLowerStr "React" = "react" := by decide
  have hwm : weakMatch wk "React" = wk.any (fun t => strContains (pyLowerStr t) "react") := by
    unfold weakMatch
    rw [hlow]
  have hRP : "React" ∈ prioritize f (cleanMissing req.missing) :=
    mem_prioritize hreact
  have hpos : weakMatch wk "React" = true →
      ∃ i w1 w2, plan.roadmap[i]? = some w1 ∧ plan.roadmap[i + 1]? = some w2 ∧
        w1.milestone = "Project: Build with React" ∧ w2.milestone = "Reinforcement: React" ∧
        w2.learning_resources = reactProject := by
    intro hm
    obtain ⟨l1, l2, hPeq⟩ := List.append_of_mem hRP
    have hsbR : skillBodies pace hours wk "React" =
        [mkBody pace hours ("Foundations: " ++ "React") (foundationsTasks "React") "React",
         mkBody pace hours ("Project: Build with " ++ "React") (projectTasks "React") "React",
         mkBody pace hours ("Reinforcement: " ++ "React") (reinforcementTasks "React") "React"] := by
      unfold skillBodies
      rw [if_pos hm]
      rfl
    have hsplit : concatMap (skillBodies pace hours wk) (prioritize f (cleanMissing req.missing)) =
        concatMap (skillBodies pace hours wk) l1 ++
          (skillBodies pace hours wk "React" ++ concatMap (skillBodies pace hours wk) l2) := by
      rw [hPeq, concatMap_append]
      rfl
    have hbodies : allBodies pace hours wk st av (prioritize f (cleanMissing req.missing)) =
        concatMap (skillBodies pace hours wk) l1 ++
          (skillBodies pace hours wk "React" ++
            (concatMap (skillBodies pace hours wk) l2 ++
              [capstoneBody pace hours av (prioritize f (cleanMissing req.missing)),
               assessmentBody pace hours st])) := by
      unfold allBodies
      rw [hsplit]
      simp [List.append_assoc]
    set A := concatMap (skillBodies pace hours wk) l1 with hA
    have hidx1 : A.length + 1 - A.length = 1 := by omega
    have hidx2 : A.length + 1 + 1 - A.length = 2 := by omega
    have hb1 : (allBodies pace hours wk st av (prioritize f (cleanMissing req.missing)))[A.length + 1]? =
        some (mkBody pace hours ("Project: Build with " ++ "React") (projectTasks "React") "React") := by
      rw [hbodies, List.getElem?_append_right (by omega : A.length ≤ A.length + 1), hidx1, hsbR]
      simp
    have hb2 : (allBodies pace hours wk st av (prioritize f (cleanMissing req.missing)))[A.length + 1 + 1]? =
        some (mkBody pace hours ("Reinforcement: " ++ "React") (reinforcementTasks "React") "React") := by
      rw [hbodies, List.getElem?_append_right (by omega : A.length ≤ A.length + 1 + 1), hidx2, hsbR]
      simp
    refine ⟨A.length + 1,
      ⟨0 + 1 + (A.length + 1),
        (mkBody pace hours ("Project: Build with " ++ "React") (projectTasks "React") "React").milestone,
        (mkBody pace hours ("Project: Build with " ++ "React") (projectTasks "React") "React").tasks,
        (mkBody pace hours ("Project: Build with " ++ "React") (projectTasks "React") "React").lr⟩,
      ⟨0 + 1 + (A.length + 1 + 1),
        (mkBody pace hours ("Reinforcement: " ++ "React") (reinforcementTasks "React") "React").milestone,
        (mkBody pace hours ("Reinforcement: " ++ "React") (reinforcementTasks "React") "React").tasks,
        (mkBody pace hours ("Reinforcement: " ++ "React") (reinforcementTasks "React") "React").lr⟩,
      ?_, ?_, ?_, ?_, ?_⟩
    · rw [hplan, getElem?_numberFrom, hb1]
      rfl
    · rw [hplan, getElem?_numberFrom, hb2]
      rfl
    · rfl
    · rfl
    · show (if ("React" : String) = "" then []
        else get_learning_resources "React" ("Reinforcement: " ++ "React")) = reactProject
      decide
  refine ⟨⟨?_, fun ha2 => ?_⟩, fun ha2 => hpos (by rw [hwm]; exact ha2)⟩
  · rintro ⟨w, hwmem, hmil⟩
    rw [hplan] at hwmem
    obtain ⟨b, hb, hbmil, _, _⟩ := mem_numberFrom hwmem
    have hbm : b.milestone = "Reinforcement: React" := hbmil ▸ hmil
    rcases mem_allBodies hb with ⟨skill, hskP, hbs⟩ | rfl | rfl
    · rcases mem_skillBodies hbs with rfl | rfl | ⟨hwmatch, rfl⟩
      · simp only [mkBody] at hbm
        exact absurd hbm foundations_ne_reinfReact
      · simp only [mkBody] at hbm
        exact absurd hbm project_ne_reinfReact
      · simp only [mkBody] at hbm
        have hs2 := reinf_milestone_inj hbm
        subst hs2
        rw [hwm] at hwmatch
        exact hwmatch
    · simp only [capstoneBody] at hbm
      exact absurd hbm capstone_ne_reinfReact
    · simp only [assessmentBody] at hbm
      exact absurd hbm (by decide)
  · obtain ⟨i, w1, w2, hg1, hg2, hm1, hm2, hlr⟩ := hpos (by rw [hwm]; exact ha2)
    exact ⟨w2, mem_of_getElem? hg2, hm2⟩

/-- A request flagging React as weak, for the C7 witness. -/
def c7Req : RoadmapRequest :=
  ⟨[Val.str "React", Val.str "AWS"], Option.none,
   some ⟨some (Val.list [Val.str "I struggle with React hooks"]), Option.none, Option.none⟩⟩

/-- Witness for C7: with weak topic "I struggle with React hooks" the plan
has a reinforcement week right after React's project week. -/
theorem C7_witness :
    ((∃ w ∈ ((roadmap c7Req).toOption.getD ⟨[]⟩).roadmap,
        w.milestone = "Reinforcement: React") ↔
      (["I struggle with React hooks"].any
        (fun t => strContains (pyLowerStr t) "react") = true)) ∧
    ((["I struggle with React hooks"].any
        (fun t => strContains (pyLowerStr t) "react") = true) →
      ∃ i w1 w2, ((roadmap c7Req).toOption.getD ⟨[]⟩).roadmap[i]? = some w1 ∧
        ((roadmap c7Req).toOption.getD ⟨[]⟩).roadmap[i + 1]? = some w2 ∧
        w1.milestone = "Project: Build with React" ∧ w2.milestone = "Reinforcement: React" ∧
        w2.learning_resources = reactProject) :=
  C7_thm c7Req ((roadmap c7Req).toOption.getD ⟨[]⟩) ["I struggle with React hooks"]
    (by decide) (by decide) (by decide)
